import Mathlib

/-!
Shallow embedding of the bridge-marker-dp device-plugin supervisor
(`pkg/plugin/common.go`, `internal/plugin/manager.go`) and proofs about it.

Durations are modelled as `Nat` nanoseconds (Go's `time.Duration` unit);
machine `int` values that stay small and non-negative in the source are
modelled as `Nat`.
-/

namespace BridgeMarker

/-! ## Constants from the source -/

/-- Constant `pluginapi.DevicePluginPath` (k8s device-plugin API). -/
def DevicePluginPath : String := "/var/lib/kubelet/device-plugins/"

/-- Constant `DeviceNamespace` from `pkg/plugin/common.go`. -/
def DeviceNamespace : String := "bridge.network.kubevirt.io"

/-- Constants `pluginapi.Healthy` / `pluginapi.Unhealthy`. -/
def Healthy : String := "Healthy"

def Unhealthy : String := "Unhealthy"

/-- Source `defaultBackoffTime` of 1s, 2s, 5s and 10s, in nanoseconds. -/
def defaultBackoffTime : List Nat :=
  [1000000000, 2000000000, 5000000000, 10000000000]

/-! ## Socket Path Resolver

`SocketPath(deviceName) = filepath.Join(pluginapi.DevicePluginPath,
fmt.Sprintf("kubevirt-%s.sock", deviceName))`.

Go's `filepath.Join(dir, elem)` concatenates its elements with `/` and
then runs `filepath.Clean`.  `DevicePluginPath` is an already-clean rooted
directory, and the second element starts with the fixed prefix
`kubevirt-`, so none of its segments can be `.` or `..`; on such inputs
the only rewrite `Clean` performs is collapsing repeated separators.  The
embedding implements that collapse. -/
def collapseSlashes : List Char → List Char
  | [] => []
  | [c] => [c]
  | c1 :: c2 :: rest =>
    if c1 = '/' ∧ c2 = '/' then collapseSlashes (c2 :: rest)
    else c1 :: collapseSlashes (c2 :: rest)

/-- Go `filepath.Join(dir, elem)` under the restriction documented at
`collapseSlashes`. -/
def filepathJoin (dir elem : String) : String :=
  ⟨collapseSlashes (dir.data ++ '/' :: elem.data)⟩

/-- Proof-side predicate: the character list contains no `//`. -/
def noDoubleSlash : List Char → Bool
  | [] => true
  | [_] => true
  | c1 :: c2 :: rest => !(c1 = '/' && c2 = '/') && noDoubleSlash (c2 :: rest)

/-- Function `SocketPath` from `pkg/plugin/common.go`. -/
def SocketPath (deviceName : String) : String :=
  filepathJoin DevicePluginPath ("kubevirt-" ++ deviceName ++ ".sock")

/-- A valid DeviceName is a kernel link name: nonempty and without a path
separator. -/
def ValidDeviceName (d : String) : Prop :=
  d ≠ "" ∧ '/' ∉ d.data

instance (d : String) : Decidable (ValidDeviceName d) := by
  unfold ValidDeviceName; infer_instance

/-! ## Device-plugin API messages (the fields the code touches) -/

/-- Message `pluginapi.Device`: one slot descriptor. -/
structure PDevice where
  ID : String
  Health : String
  deriving Repr, DecidableEq

/-- Message `pluginapi.ContainerAllocateRequest` (contents unused by the code). -/
structure ContainerAllocateRequest where
  DevicesIDs : List String
  deriving Repr, DecidableEq

/-- Message `pluginapi.AllocateRequest`. -/
structure AllocateRequest where
  ContainerRequests : List ContainerAllocateRequest
  deriving Repr, DecidableEq

/-- Message `pluginapi.ContainerAllocateResponse` (the fields the claims
mention).  Go `new(pluginapi.ContainerAllocateResponse)` zero-values every
field, so the lists are empty. -/
structure ContainerAllocateResponse where
  Envs : List (String × String)
  Mounts : List (String × String)
  Devices : List String
  deriving Repr, DecidableEq

/-- An empty `ContainerAllocateResponse` as produced by `new(...)`. -/
def ContainerAllocateResponse.empty : ContainerAllocateResponse :=
  ⟨[], [], []⟩

/-- Message `pluginapi.AllocateResponse`. -/
structure AllocateResponse where
  ContainerResponses : List ContainerAllocateResponse
  deriving Repr, DecidableEq

/-- Message `pluginapi.DevicePluginOptions`. -/
structure DevicePluginOptions where
  PreStartRequired : Bool
  GetPreferredAllocationAvailable : Bool
  deriving Repr, DecidableEq

/-- Message `pluginapi.PreStartContainerResponse` (empty). -/
structure PreStartContainerResponse where
  deriving Repr, DecidableEq

/-- Message `pluginapi.PreferredAllocationResponse` (the code returns it
empty). -/
structure PreferredAllocationResponse where
  ContainerResponses : List String
  deriving Repr, DecidableEq

/-- Message `pluginapi.Empty`. -/
structure EmptyMsg where
  deriving Repr, DecidableEq

/-- Message `pluginapi.PreStartContainerRequest` (contents unused by the
code). -/
structure PreStartContainerRequest where
  DevicesIDs : List String
  deriving Repr, DecidableEq

/-- Message `pluginapi.PreferredAllocationRequest` (contents unused by the
code). -/
structure PreferredAllocationRequest where
  ContainerRequests : List (List String)
  deriving Repr, DecidableEq

/-! ## BridgeDevicePlugin state -/

/-- The state of a `BridgeDevicePlugin` that the pure claims touch.  The
gRPC server, mutex and channels live in the effectful layer; the channels'
protocol is modelled separately as event traces. -/
structure BridgeDevicePlugin where
  devs : List PDevice
  socketPath : String
  deviceName : String
  resourceName : String
  initialized : Bool
  deriving Repr, DecidableEq

/-- Constructor `NewBridgeDevicePlugin(deviceName, maxDevices)`: its
`for i := 0; i < maxDevices; i++` loop appends a slot with
`ID: deviceName + strconv.Itoa(i)` and `Health: pluginapi.Healthy`. -/
def NewBridgeDevicePlugin (deviceName : String) (maxDevices : Nat) :
    BridgeDevicePlugin :=
  { devs := (List.range maxDevices).map
      (fun i => { ID := deviceName ++ Nat.repr i, Health := Healthy })
    socketPath := SocketPath deviceName
    deviceName := deviceName
    resourceName := DeviceNamespace ++ "/" ++ deviceName
    initialized := false }

/-- Getter `GetDeviceName`. -/
def BridgeDevicePlugin.GetDeviceName (dpi : BridgeDevicePlugin) : String :=
  dpi.deviceName

/-- Getter `GetInitialized` (reads `initialized` under the plugin mutex). -/
def BridgeDevicePlugin.GetInitialized (dpi : BridgeDevicePlugin) : Bool :=
  dpi.initialized

/-! ## Agent-facing RPC handlers

Each Go handler returns `(*Resp, error)`; the embedding keeps that shape as
`Option Resp × Option String` (`none` error = Go `nil`). -/

/-- Handler `Allocate`: builds one `new(pluginapi.ContainerAllocateResponse)`
and returns it as the single element of `ContainerResponses`, never an
error. -/
def BridgeDevicePlugin.Allocate (_dpi : BridgeDevicePlugin)
    (_r : AllocateRequest) : Option AllocateResponse × Option String :=
  (some { ContainerResponses := [ContainerAllocateResponse.empty] }, none)

/-- Handler `GetDevicePluginOptions`. -/
def BridgeDevicePlugin.GetDevicePluginOptions (_dpi : BridgeDevicePlugin)
    (_e : EmptyMsg) : Option DevicePluginOptions × Option String :=
  (some { PreStartRequired := false, GetPreferredAllocationAvailable := false },
   none)

/-- Handler `PreStartContainer`. -/
def BridgeDevicePlugin.PreStartContainer (_dpi : BridgeDevicePlugin)
    (_r : PreStartContainerRequest) :
    Option PreStartContainerResponse × Option String :=
  (some {}, none)

/-- Handler `GetPreferredAllocation`. -/
def BridgeDevicePlugin.GetPreferredAllocation (_dpi : BridgeDevicePlugin)
    (_r : PreferredAllocationRequest) :
    Option PreferredAllocationResponse × Option String :=
  (some { ContainerResponses := [] }, none)

/-! ## ListAndWatch (the pure content of the handler)

Handler `ListAndWatch` first sends the full `dpi.devs` list; then, on each value
received from the health channel, sets every slot's `Health` field to the
received health and sends the full list again. -/

/-- The device list of the first `ListAndWatchResponse` sent. -/
def listAndWatchFirstMessage (dpi : BridgeDevicePlugin) : List PDevice :=
  dpi.devs

/-- Loop `for _, dev := range dpi.devs` setting `dev.Health` to the received
value: the slot list after a health value arrives, which is also the device
list of the next `ListAndWatchResponse` sent. -/
def applyDeviceHealth (devs : List PDevice) (h : String) : List PDevice :=
  devs.map (fun dev => { dev with Health := h })

/-! ## Health loop (`healthCheck`)

The loop's decisions are pure functions of what it observed; subscription,
fsnotify and channel mechanics stay in the effectful layer. -/

/-- Kernel link operational states (netlink `LinkOperState`). -/
inductive OperState
  | unknown
  | notPresent
  | down
  | lowerLayerDown
  | testing
  | dormant
  | up
  deriving Repr, DecidableEq

/-- Outcome of the initial `netlink.LinkByName(dpi.deviceName)` stat. -/
inductive LinkLookup
  | notFound
  | failed
  | found (operState : OperState)
  deriving Repr, DecidableEq

/-- The initial bridge check of `healthCheck`: `LinkNotFoundError` publishes
`Unhealthy`; any other error is fatal (`could not check the bridge`); a
found link publishes `Healthy` iff `OperState == netlink.OperUp`.  `.ok h`
is the health published on `dpi.health`; `.error` is the fatal return. -/
def initialBridgeCheck : LinkLookup → Except String String
  | .notFound => .ok Unhealthy
  | .failed => .error ("could not check the bridge")
  | .found st => .ok (if st = .up then Healthy else Unhealthy)

/-- A netlink `LinkUpdate` as consumed by `healthCheck`'s select loop
(it reads only the link's name and operational state). -/
structure LinkUpdate where
  name : String
  operState : OperState
  deriving Repr, DecidableEq

/-- The select branch `case update := <-updates`: when the update is for
`deviceName`, publish `Healthy` iff `OperState == netlink.OperUp`;
otherwise nothing is published. -/
def healthCheckOnUpdate (deviceName : String) (u : LinkUpdate) :
    Option String :=
  if u.name = deviceName then
    some (if u.operState = .up then Healthy else Unhealthy)
  else
    none

/-! ## `stopDevicePlugin`

The body runs in source order: wait (at most 1 second) for `deregistered`,
`dpi.server.Stop()`, `dpi.setInitialized(false)`, `dpi.cleanup()` (socket
file removal); the guarded `close(dpi.done)` sits in a `defer`, so Go runs
it after the body, i.e. last. -/

/-- Externally visible steps of `stopDevicePlugin`, in execution order. -/
inductive StopStep
  | waitDeregistered
  | serverStop
  | setInitialized (b : Bool)
  | removeSocket
  | closeDone
  deriving Repr, DecidableEq

/-- The step sequence of `stopDevicePlugin`, given whether `dpi.done` was
already closed when the deferred guard (`IsChanClosed` then `close`) ran. -/
def stopDevicePluginSteps (doneAlreadyClosed : Bool) : List StopStep :=
  [StopStep.waitDeregistered, StopStep.serverStop,
   StopStep.setInitialized false, StopStep.removeSocket] ++
  (if doneAlreadyClosed then [] else [StopStep.closeDone])

/-- The step sequence the claim describes: close `done` first (when not
already closed), then wait, stop the server, clear `initialized`, remove
the socket.  Stated from the claim's words, for comparison with
`stopDevicePluginSteps`. -/
def claimedStopSteps (doneAlreadyClosed : Bool) : List StopStep :=
  (if doneAlreadyClosed then [] else [StopStep.closeDone]) ++
  [StopStep.waitDeregistered, StopStep.serverStop,
   StopStep.setInitialized false, StopStep.removeSocket]

/-! ## Supervised-Start Wrapper (`controlledDevice`, `manager.go`) -/

/-- Struct `controlledDevice`.  Field `stopChan` models the stop channel:
`none` is Go's nil channel, `some id` a channel identity allocated by
`make`.  A nil `backoff` slice is `none`. -/
structure controlledDevice where
  devicePlugin : BridgeDevicePlugin
  started : Bool
  stopChan : Option Nat
  backoff : Option (List Nat)
  deriving Repr, DecidableEq

/-- The nil-slice default in `Start`: a nil `backoff` is replaced by
`defaultBackoffTime`. -/
def controlledDevice.effectiveBackoff (c : controlledDevice) : List Nat :=
  c.backoff.getD defaultBackoffTime

/-- The surrounding runtime state the wrapper touches: how many restart
goroutines `Start` has spawned, a fresh-channel allocator, and which
channels have been closed (Go panics on closing a nil or closed channel). -/
structure GoWorld where
  restartLoops : Nat
  nextChan : Nat
  closedChans : List Nat
  deriving Repr, DecidableEq

/-- Operation `controlledDevice.Start`: returns immediately when `started`;
otherwise makes a fresh `stop` channel, spawns the restart goroutine, and
sets `stopChan` and `started`. -/
def cdStart (c : controlledDevice) (w : GoWorld) :
    controlledDevice × GoWorld :=
  if c.started then
    (c, w)
  else
    ({ c with stopChan := some w.nextChan, started := true },
     { w with restartLoops := w.restartLoops + 1, nextChan := w.nextChan + 1 })

/-- Operation `controlledDevice.Stop`: returns immediately when not `started`;
otherwise `close(c.stopChan)` — `none` is a Go panic (close of nil channel),
as is closing an already-closed channel — then clears `stopChan` and
`started`. -/
def cdStop (c : controlledDevice) (w : GoWorld) :
    Option (controlledDevice × GoWorld) :=
  if !c.started then
    some (c, w)
  else
    match c.stopChan with
    | none => none
    | some ch =>
      if ch ∈ w.closedChans then
        none
      else
        some ({ c with stopChan := none, started := false },
              { w with closedChans := ch :: w.closedChans })

/-! ### The restart loop's retry index

The goroutine spawned by `Start` loops: call `err := dev.Start(stop)`; if
`err != nil` set `retries = int(math.Min(float64(retries+1),
float64(len(backoff)-1)))`, else set `retries = 0`; then select on `stop`
(return) or `time.After(backoff[retries])` (continue and call `dev.Start`
again).  Both `retries` and `len(backoff)-1` stay small non-negative ints,
on which the float round trip is exact. -/

/-- One update of `retries` after a `dev.Start` call; `isErr` is whether
the call returned a non-nil error. -/
def updateRetries (backoffLen retries : Nat) (isErr : Bool) : Nat :=
  if isErr then min (retries + 1) (backoffLen - 1) else 0

/-- The value of `retries` after the loop has processed the given sequence
of `dev.Start` results (`true` = non-nil error), starting from `retries = 0`. -/
def retriesAfter (backoffLen : Nat) (results : List Bool) : Nat :=
  results.foldl (updateRetries backoffLen) 0

/-- The duration `backoff[retries]` of the `time.After` wait the loop
performs after the given results, before calling `dev.Start` again. -/
def waitAfter (backoff : List Nat) (results : List Bool) : Nat :=
  backoff.getD (retriesAfter backoff.length results) 0

/-! ## Device supervisor (`BridgeDeviceController`)

`startedPlugins` is a Go `map[string]controlledDevice`, modelled as an
association list with map semantics (lookup by key, delete removes the
key, insert overwrites).  The mutex serializes every `startDevice` /
`stopDevice` call (`startPermanentPlugins`, `startNewPlugin` and
`stopAllPlugins` all hold it), so a run of the supervisor is a sequence of
these two operations; `runOps` folds such a sequence.  Wrapper lifecycle
calls are recorded in an event trace to state ordering properties. -/

/-- Observable wrapper lifecycle events emitted by the supervisor. -/
inductive CtrlEvent
  | stopWrapper (name : String)
  | startWrapper (name : String)
  | record (name : String)
  deriving Repr, DecidableEq

/-- Go map lookup on the association list. -/
def lookupPlugin (l : List (String × controlledDevice)) (n : String) :
    Option controlledDevice :=
  (l.find? (fun p => p.1 = n)).map (·.2)

/-- Go `delete(m, n)`. -/
def eraseKey (l : List (String × controlledDevice)) (n : String) :
    List (String × controlledDevice) :=
  l.filter (fun p => ¬(p.1 = n))

/-- Go `m[n] = v`. -/
def insertKey (l : List (String × controlledDevice)) (n : String)
    (v : controlledDevice) : List (String × controlledDevice) :=
  (n, v) :: eraseKey l n

/-- The supervisor state the controller-level claims touch. -/
structure CtrlState where
  startedPlugins : List (String × controlledDevice)
  world : GoWorld
  trace : List CtrlEvent
  deriving Repr, DecidableEq

/-- The supervisor's initial state: an empty `startedPlugins` map. -/
def initCtrlState : CtrlState :=
  { startedPlugins := [], world := ⟨0, 0, []⟩, trace := [] }

/-- Operation `stopDevice(resourceName)`: if present, `dev.Stop()` then
`delete(c.startedPlugins, resourceName)`; `none` propagates a Go panic
from `Stop`. -/
def stopDevice (s : CtrlState) (name : String) : Option CtrlState :=
  match lookupPlugin s.startedPlugins name with
  | none => some s
  | some dev =>
    (cdStop dev s.world).map (fun r =>
      { startedPlugins := eraseKey s.startedPlugins name,
        world := r.2,
        trace := s.trace ++ [CtrlEvent.stopWrapper name] })

/-- Operation `startDevice(resourceName, dev)`: `stopDevice(resourceName)`,
build a
fresh wrapper (zero-valued `started` and `stopChan`) with the controller's
backoff, `Start()` it, record it in `startedPlugins`. -/
def startDevice (s : CtrlState) (name : String) (dev : BridgeDevicePlugin)
    (backoff : List Nat) : Option CtrlState :=
  (stopDevice s name).map (fun s1 =>
    let cd : controlledDevice :=
      { devicePlugin := dev, started := false, stopChan := none,
        backoff := some backoff }
    let r := cdStart cd s1.world
    { startedPlugins := insertKey s1.startedPlugins name r.1,
      world := r.2,
      trace := s1.trace ++ [CtrlEvent.startWrapper name, CtrlEvent.record name] })

/-- One serialized supervisor operation on `startedPlugins`. -/
inductive SupOp
  | start (name : String) (dev : BridgeDevicePlugin)
  | stop (name : String)

/-- Apply one operation (propagating Go panics as `none`). -/
def applySupOp (backoff : List Nat) (s : CtrlState) : SupOp → Option CtrlState
  | .start n d => startDevice s n d backoff
  | .stop n => stopDevice s n

/-- A run of the supervisor: the serialized sequence of `startDevice` /
`stopDevice` calls, folded from the initial empty state. -/
def runOps (backoff : List Nat) (ops : List SupOp) : Option CtrlState :=
  ops.foldl (fun os op => os.bind (fun s => applySupOp backoff s op))
    (some initCtrlState)

/-- The loop body of `Initialized`: `for _, dev := range c.startedPlugins
{ if !dev.devicePlugin.GetInitialized() { return false } }; return true`. -/
def initializedLoop : List (String × controlledDevice) → Bool
  | [] => true
  | (_, dev) :: rest =>
    if !dev.devicePlugin.GetInitialized then false else initializedLoop rest

/-- Predicate `BridgeDeviceController.Initialized` (under the mutex). -/
def CtrlState.Initialized (s : CtrlState) : Bool :=
  initializedLoop s.startedPlugins

/-! ## Sample data for concrete instantiations -/

/-- A supervisor state holding one started wrapper for the bridge named
br0, as produced by one `startDevice` call (the trace is irrelevant and
left empty). -/
def sampleStartedState : CtrlState :=
  { startedPlugins :=
      [("br0", { devicePlugin := NewBridgeDevicePlugin ("br0") 1,
                 started := true, stopChan := some 0,
                 backoff := some defaultBackoffTime })],
    world := ⟨1, 1, []⟩,
    trace := [] }

/-! # Theorems

Helper lemmas first, then one theorem per claim (with its witness or
counterexample where applicable). -/

/-! ## Socket path resolver -/

/-- Collapsing separators is the identity on a list without any slash. -/
theorem collapseSlashes_of_not_mem (l : List Char) (h : '/' ∉ l) :
    collapseSlashes l = l := by
  induction l with
  | nil => rfl
  | cons c rest ih =>
    cases rest with
    | nil => rfl
    | cons c2 rest2 =>
      have hc : c ≠ '/' := fun hc => h (hc ▸ List.mem_cons_self _ _)
      have htail : '/' ∉ c2 :: rest2 := fun hm => h (List.mem_cons_of_mem _ hm)
      rw [collapseSlashes, if_neg (fun hand => hc hand.1), ih htail]

/-- Collapsing separators passes over a prefix that has no doubled slash
and does not end in a slash. -/
theorem collapseSlashes_append (a b : List Char) (ha : noDoubleSlash a = true)
    (hlast : a.getLast? ≠ some '/') :
    collapseSlashes (a ++ b) = a ++ collapseSlashes b := by
  induction a with
  | nil => rfl
  | cons c rest ih =>
    cases rest with
    | nil =>
      have hc : c ≠ '/' := by
        intro h; exact hlast (by simp [h])
      cases b with
      | nil => rfl
      | cons b1 b2 =>
        rw [List.cons_append, List.nil_append, collapseSlashes,
          if_neg (fun hand => hc hand.1)]
        rfl
    | cons c2 rest2 =>
      have hpair : ¬(c = '/' ∧ c2 = '/') := by
        intro hand
        simp [noDoubleSlash, hand.1, hand.2] at ha
      have ha2 : noDoubleSlash (c2 :: rest2) = true := by
        simp [noDoubleSlash] at ha
        exact ha.2
      have hlast2 : (c2 :: rest2).getLast? ≠ some '/' := by
        rwa [List.getLast?_cons_cons] at hlast
      rw [List.cons_append, List.cons_append, collapseSlashes, if_neg hpair]
      exact congrArg (List.cons c) (ih ha2 hlast2)

/-- For a slash-free device name, `SocketPath` is the plugin directory,
the fixed prefix, the name and the socket suffix, concatenated. -/
theorem SocketPath_valid_eq (d : String) (hd : '/' ∉ d.data) :
    SocketPath d = "/var/lib/kubelet/device-plugins/kubevirt-" ++ d ++ ".sock" := by
  apply String.ext
  have h0 : (SocketPath d).data =
      collapseSlashes ("/var/lib/kubelet/device-plugins/".data ++
        '/' :: (("kubevirt-".data ++ d.data) ++ ".sock".data)) := by
    simp [SocketPath, filepathJoin, DevicePluginPath, String.data_append]
  have hsplit : "/var/lib/kubelet/device-plugins/".data ++
      '/' :: (("kubevirt-".data ++ d.data) ++ ".sock".data) =
      "/var/lib/kubelet/device-plugins".data ++
      ('/' :: '/' :: 'k' :: ("ubevirt-".data ++ (d.data ++ ".sock".data))) := by
    have h1 : "/var/lib/kubelet/device-plugins/".data =
        "/var/lib/kubelet/device-plugins".data ++ ['/'] := by decide
    have h2 : "kubevirt-".data = 'k' :: "ubevirt-".data := by decide
    rw [h1, h2]
    simp [List.append_assoc]
  have hmem : '/' ∉ 'k' :: ("ubevirt-".data ++ (d.data ++ ".sock".data)) := by
    intro hm
    rcases List.mem_cons.mp hm with h | h
    · exact absurd h (by decide)
    · rcases List.mem_append.mp h with h | h
      · exact absurd h (by decide)
      · rcases List.mem_append.mp h with h | h
        · exact hd h
        · exact absurd h (by decide)
  rw [h0, hsplit,
    collapseSlashes_append _ _ (by decide) (by decide),
    collapseSlashes, if_pos ⟨rfl, rfl⟩,
    collapseSlashes, if_neg (fun hand => absurd hand.2 (by decide)),
    collapseSlashes_of_not_mem _ hmem]
  have hP : ("/var/lib/kubelet/device-plugins/kubevirt-" ++ d ++ ".sock").data =
      ("/var/lib/kubelet/device-plugins/kubevirt-".data ++ d.data) ++ ".sock".data := by
    simp [String.data_append]
  rw [hP]
  have hQ : "/var/lib/kubelet/device-plugins/kubevirt-".data =
      "/var/lib/kubelet/device-plugins".data ++ '/' :: 'k' :: "ubevirt-".data := by
    decide
  rw [hQ]
  simp [List.append_assoc]

/-- Claim C9: `SocketPath` is a pure, deterministic function of the device
name, equal to the plugin directory joined with the fixed prefix, the
device name and the socket suffix, and it is injective over valid device
names. -/
theorem socketPath_deterministic_and_injective :
    (∀ d, ValidDeviceName d →
      SocketPath d = "/var/lib/kubelet/device-plugins/kubevirt-" ++ d ++ ".sock") ∧
    (∀ d1 d2, ValidDeviceName d1 → ValidDeviceName d2 →
      SocketPath d1 = SocketPath d2 → d1 = d2) := by
  constructor
  · intro d hd
    exact SocketPath_valid_eq d hd.2
  · intro d1 d2 h1 h2 heq
    rw [SocketPath_valid_eq d1 h1.2, SocketPath_valid_eq d2 h2.2] at heq
    have hdata := congrArg String.data heq
    simp only [String.data_append, List.append_assoc] at hdata
    have := List.append_cancel_right (List.append_cancel_left hdata)
    exact String.ext this

/-- Witness for C9 at the concrete device name br0. -/
theorem socketPath_deterministic_and_injective_witness :
    ValidDeviceName ("br0") ∧
    SocketPath ("br0") = "/var/lib/kubelet/device-plugins/kubevirt-br0.sock" ∧
    ("br0" : String) = "br0" := by
  refine ⟨by decide, ?_, ?_⟩
  · have h := socketPath_deterministic_and_injective.1 ("br0") (by decide)
    simpa using h
  · exact socketPath_deterministic_and_injective.2 ("br0") ("br0")
      (by decide) (by decide) rfl

/-! ## Agent-facing handlers -/

/-- Claim C10: for every input, the handlers `Allocate`,
`GetDevicePluginOptions`, `PreStartContainer` and `GetPreferredAllocation`
return a non-nil response and a nil error. -/
theorem handlers_never_fail :
    ∀ (dpi : BridgeDevicePlugin) (r : AllocateRequest) (e : EmptyMsg)
      (pr : PreStartContainerRequest) (gr : PreferredAllocationRequest),
      ((dpi.Allocate r).1.isSome = true ∧ (dpi.Allocate r).2 = none) ∧
      ((dpi.GetDevicePluginOptions e).1.isSome = true ∧
        (dpi.GetDevicePluginOptions e).2 = none) ∧
      ((dpi.PreStartContainer pr).1.isSome = true ∧
        (dpi.PreStartContainer pr).2 = none) ∧
      ((dpi.GetPreferredAllocation gr).1.isSome = true ∧
        (dpi.GetPreferredAllocation gr).2 = none) := by
  intro dpi r e pr gr
  exact ⟨⟨rfl, rfl⟩, ⟨rfl, rfl⟩, ⟨rfl, rfl⟩, ⟨rfl, rfl⟩⟩

/-- Counterexample to claim C3: a request with two container requests
still gets exactly one container response, not one per request. -/
theorem allocate_counterexample :
    (((NewBridgeDevicePlugin ("br0") 1).Allocate
        { ContainerRequests := [{ DevicesIDs := [] }, { DevicesIDs := [] }] }).1.map
      (fun resp => resp.ContainerResponses.length)) = some 1 ∧
    ({ ContainerRequests := [{ DevicesIDs := [] }, { DevicesIDs := [] }] } :
      AllocateRequest).ContainerRequests.length = 2 ∧
    (1 : Nat) ≠ 2 := by
  exact ⟨rfl, rfl, by decide⟩

/-- Claim C3 (amended): for every request, `Allocate` returns no error and
a response whose `ContainerResponses` is exactly one empty
`ContainerAllocateResponse` (no devices, env vars or mounts), regardless
of how many container requests the request carries. -/
theorem allocate_single_empty_response :
    ∀ (dpi : BridgeDevicePlugin) (r : AllocateRequest),
      (dpi.Allocate r).2 = none ∧
      (dpi.Allocate r).1 = some { ContainerResponses := [⟨[], [], []⟩] } ∧
      ((dpi.Allocate r).1.map (fun resp => resp.ContainerResponses.length)) =
        some 1 := by
  intro dpi r
  exact ⟨rfl, rfl, rfl⟩

/-! ## Slot construction and the first list-and-watch message -/

/-- Claim C4: the plugin built for device d with maxSlots N has exactly N
slots, the slot at index i has ID d followed by the decimal rendering of i
and health Healthy, and the first `ListAndWatch` message is exactly this
list. -/
theorem newBridgeDevicePlugin_slots :
    ∀ (d : String) (N : Nat),
      (NewBridgeDevicePlugin d N).devs.length = N ∧
      (∀ i, i < N → (NewBridgeDevicePlugin d N).devs[i]? =
        some { ID := d ++ Nat.repr i, Health := Healthy }) ∧
      listAndWatchFirstMessage (NewBridgeDevicePlugin d N) =
        (NewBridgeDevicePlugin d N).devs := by
  intro d N
  refine ⟨by simp [NewBridgeDevicePlugin], ?_, rfl⟩
  intro i hi
  simp only [NewBridgeDevicePlugin, List.getElem?_map]
  rw [List.getElem?_range hi]
  rfl

/-- Witness for C4 at device name br0 with two slots. -/
theorem newBridgeDevicePlugin_slots_witness :
    (NewBridgeDevicePlugin ("br0") 2).devs.length = 2 ∧
    (NewBridgeDevicePlugin ("br0") 2).devs[1]? =
      some { ID := "br0" ++ Nat.repr 1, Health := Healthy } := by
  refine ⟨(newBridgeDevicePlugin_slots ("br0") 2).1, ?_⟩
  exact (newBridgeDevicePlugin_slots ("br0") 2).2.1 1 (by decide)

/-! ## Health loop -/

/-- Claim C5: the health published by the health loop is Healthy iff the
observed operational state is OperUp -- at the initial stat, an absent
link or any non-up state publishes Unhealthy -- and a received health value
is applied to every slot of the next list-and-watch message. -/
theorem healthCheck_reflects_operState :
    ∀ (dn : String) (u : LinkUpdate) (devs : List PDevice) (h : String)
      (st : OperState),
      initialBridgeCheck LinkLookup.notFound = Except.ok Unhealthy ∧
      initialBridgeCheck (LinkLookup.found st) =
        Except.ok (if st = OperState.up then Healthy else Unhealthy) ∧
      (u.name = dn →
        (healthCheckOnUpdate dn u = some Healthy ↔
          u.operState = OperState.up)) ∧
      (u.name = dn →
        (healthCheckOnUpdate dn u = some Unhealthy ↔
          u.operState ≠ OperState.up)) ∧
      (applyDeviceHealth devs h).all (fun dev => dev.Health = h) = true ∧
      (applyDeviceHealth devs h).length = devs.length := by
  intro dn u devs h st
  refine ⟨rfl, rfl, ?_, ?_, ?_, by simp [applyDeviceHealth]⟩
  · intro hn
    by_cases hop : u.operState = OperState.up <;>
      simp [healthCheckOnUpdate, hn, hop, Healthy, Unhealthy]
  · intro hn
    by_cases hop : u.operState = OperState.up <;>
      simp [healthCheckOnUpdate, hn, hop, Healthy, Unhealthy]
  · simp [applyDeviceHealth, List.all_eq_true]

/-- Witness for C5: an up update for br0 publishes Healthy, a down update
publishes Unhealthy, an absent link at the initial stat publishes
Unhealthy, and an Unhealthy value lands on every slot. -/
theorem healthCheck_reflects_operState_witness :
    initialBridgeCheck LinkLookup.notFound = Except.ok Unhealthy ∧
    healthCheckOnUpdate ("br0") ⟨"br0", OperState.up⟩ = some Healthy ∧
    healthCheckOnUpdate ("br0") ⟨"br0", OperState.down⟩ = some Unhealthy ∧
    (applyDeviceHealth [⟨"br00", Healthy⟩] Unhealthy).all
      (fun dev => dev.Health = Unhealthy) = true := by
  have h1 := healthCheck_reflects_operState ("br0") ⟨"br0", OperState.up⟩
    [⟨"br00", Healthy⟩] Unhealthy OperState.up
  have h2 := healthCheck_reflects_operState ("br0") ⟨"br0", OperState.down⟩
    [⟨"br00", Healthy⟩] Unhealthy OperState.down
  exact ⟨h1.1, (h1.2.2.1 rfl).mpr rfl, (h2.2.2.2.1 rfl).mpr (by decide),
    h1.2.2.2.2.1⟩

/-! ## Stop procedure ordering -/

/-- Counterexample to claim C2: when the done channel is not yet closed,
the first step of `stopDevicePlugin` is the bounded wait for
deregistration, not the close of done -- the close sits in a defer and
runs last. -/
theorem stopDevicePlugin_order_counterexample :
    stopDevicePluginSteps false ≠ claimedStopSteps false ∧
    (stopDevicePluginSteps false).head? = some StopStep.waitDeregistered ∧
    (claimedStopSteps false).head? = some StopStep.closeDone := by
  decide

/-- Claim C2 (amended): `stopDevicePlugin` waits at most 1 second for the
deregistered channel, then stops the gRPC server, then clears
initialized, then removes the socket file, and finally -- via the
deferred guard -- closes done iff it was not already closed, as the last
step. -/
theorem stopDevicePlugin_deferred_close_order :
    ∀ b : Bool,
      ((stopDevicePluginSteps b).indexOf StopStep.waitDeregistered <
        (stopDevicePluginSteps b).indexOf StopStep.serverStop) ∧
      ((stopDevicePluginSteps b).indexOf StopStep.serverStop <
        (stopDevicePluginSteps b).indexOf (StopStep.setInitialized false)) ∧
      ((stopDevicePluginSteps b).indexOf (StopStep.setInitialized false) <
        (stopDevicePluginSteps b).indexOf StopStep.removeSocket) ∧
      (StopStep.closeDone ∈ stopDevicePluginSteps b ↔ b = false) ∧
      (b = false →
        (stopDevicePluginSteps b).getLast? = some StopStep.closeDone) := by
  decide

/-- Witness for C2 at a not-yet-closed done channel. -/
theorem stopDevicePlugin_deferred_close_order_witness :
    (stopDevicePluginSteps false).getLast? = some StopStep.closeDone := by
  exact (stopDevicePlugin_deferred_close_order false).2.2.2.2 rfl

/-! ## Restart loop backoff -/

/-- Folding the retry update over k consecutive failures from index r
saturates at the last backoff index. -/
theorem foldl_updateRetries_replicate (L : Nat) :
    ∀ (k r : Nat), r ≤ L - 1 →
      List.foldl (updateRetries L) r (List.replicate k true) =
        min (r + k) (L - 1) := by
  intro k
  induction k with
  | zero =>
    intro r hr
    simpa using (Nat.min_eq_left hr).symm
  | succ n ih =>
    intro r hr
    rw [List.replicate_succ, List.foldl_cons]
    have hstep : updateRetries L r true = min (r + 1) (L - 1) := rfl
    rw [hstep, ih (min (r + 1) (L - 1)) (Nat.min_le_right _ _)]
    omega

/-- Counterexample to claim C1: with the default schedule, after the 1st
consecutive failed start the loop waits backoff of index 1 (2 seconds),
while the claimed formula picks index min(0, 3) = 0 (1 second). -/
theorem restartLoop_first_wait_counterexample :
    waitAfter defaultBackoffTime [true] = 2000000000 ∧
    defaultBackoffTime.getD (min (1 - 1) (defaultBackoffTime.length - 1)) 0 =
      1000000000 ∧
    (2000000000 : Nat) ≠ 1000000000 := by
  decide

/-- Claim C1 (amended): after the k-th consecutive failed start -- whether
from the loop start or following a success -- the restart loop waits
backoff of index min(k, len(backoff)-1) before calling start again, and a
nil return resets the retry index to 0. -/
theorem restartLoop_backoff_saturation :
    ∀ (backoff : List Nat) (k : Nat) (prior : List Bool),
      backoff ≠ [] →
      (retriesAfter backoff.length (List.replicate k true) =
        min k (backoff.length - 1)) ∧
      (retriesAfter backoff.length (prior ++ false :: List.replicate k true) =
        min k (backoff.length - 1)) ∧
      (waitAfter backoff (List.replicate k true) =
        backoff.getD (min k (backoff.length - 1)) 0) ∧
      (waitAfter backoff (prior ++ false :: List.replicate k true) =
        backoff.getD (min k (backoff.length - 1)) 0) ∧
      (∀ r, updateRetries backoff.length r false = 0) := by
  intro backoff k prior hne
  have h1 : retriesAfter backoff.length (List.replicate k true) =
      min k (backoff.length - 1) := by
    unfold retriesAfter
    rw [foldl_updateRetries_replicate _ k 0 (Nat.zero_le _)]
    simp
  have h2 : retriesAfter backoff.length
      (prior ++ false :: List.replicate k true) =
      min k (backoff.length - 1) := by
    unfold retriesAfter
    rw [List.foldl_append, List.foldl_cons]
    have hreset : updateRetries backoff.length
        (List.foldl (updateRetries backoff.length) 0 prior) false = 0 := rfl
    rw [hreset, foldl_updateRetries_replicate _ k 0 (Nat.zero_le _)]
    simp
  refine ⟨h1, h2, ?_, ?_, fun r => rfl⟩
  · unfold waitAfter; rw [h1]
  · unfold waitAfter; rw [h2]

/-- Witness for C1 at the default schedule, five consecutive failures, and
a failure history interrupted by one success. -/
theorem restartLoop_backoff_saturation_witness :
    waitAfter defaultBackoffTime (List.replicate 5 true) =
      defaultBackoffTime.getD (min 5 (defaultBackoffTime.length - 1)) 0 ∧
    retriesAfter defaultBackoffTime.length
      ([true] ++ false :: List.replicate 5 true) = min 5 3 := by
  have h := restartLoop_backoff_saturation defaultBackoffTime 5 [true]
    (by decide)
  exact ⟨h.2.2.1, h.2.1⟩

/-! ## Supervised-Start Wrapper idempotence -/

/-- Claim C7: a second `Start` while started changes nothing and spawns no
second restart loop, and a second `Stop` while stopped is a no-op, so
stopping twice is safe (no close of a nil or closed channel). -/
theorem controlledDevice_start_stop_idempotent :
    ∀ (c : controlledDevice) (w : GoWorld),
      (c.started = true → cdStart c w = (c, w)) ∧
      (cdStart (cdStart c w).1 (cdStart c w).2 = cdStart c w) ∧
      (c.started = false →
        (cdStart c w).2.restartLoops = w.restartLoops + 1 ∧
        (cdStart c w).1.started = true) ∧
      (c.started = false → cdStop c w = some (c, w)) ∧
      (∀ c' w', cdStop c w = some (c', w') → cdStop c' w' = some (c', w')) := by
  intro c w
  refine ⟨?_, ?_, ?_, ?_, ?_⟩
  · intro h; simp [cdStart, h]
  · by_cases h : c.started <;> simp [cdStart, h]
  · intro h; simp [cdStart, h]
  · intro h; simp [cdStop, h]
  · intro c' w' hstop
    by_cases h : c.started
    · cases hc : c.stopChan with
      | none => simp [cdStop, h, hc] at hstop
      | some ch =>
        by_cases hm : ch ∈ w.closedChans
        · simp [cdStop, h, hc, hm] at hstop
        · simp [cdStop, h, hc, hm] at hstop
          have hc' : c'.started = false := by
            rw [← hstop.1]
          simp [cdStop, hc']
    · simp [cdStop, h] at hstop
      obtain ⟨rfl, rfl⟩ := hstop
      simp [cdStop, h]

/-- Witness for C7 at a fresh wrapper for br0. -/
theorem controlledDevice_start_stop_idempotent_witness :
    (cdStart { devicePlugin := NewBridgeDevicePlugin ("br0") 1,
               started := false, stopChan := none,
               backoff := some defaultBackoffTime }
      ⟨0, 0, []⟩).2.restartLoops = 1 ∧
    cdStop { devicePlugin := NewBridgeDevicePlugin ("br0") 1,
             started := false, stopChan := none,
             backoff := some defaultBackoffTime }
      ⟨0, 0, []⟩ =
      some ({ devicePlugin := NewBridgeDevicePlugin ("br0") 1,
              started := false, stopChan := none,
              backoff := some defaultBackoffTime },
            ⟨0, 0, []⟩) := by
  have h := controlledDevice_start_stop_idempotent
    { devicePlugin := NewBridgeDevicePlugin ("br0") 1, started := false,
      stopChan := none, backoff := some defaultBackoffTime } ⟨0, 0, []⟩
  exact ⟨(h.2.2.1 rfl).1, h.2.2.2.2 _ _ (h.2.2.2.1 rfl)⟩

/-! ## Supervisor map uniqueness and replacement order -/

/-- The keys of `eraseKey` are the filtered keys. -/
theorem eraseKey_keys (l : List (String × controlledDevice)) (n : String) :
    (eraseKey l n).map Prod.fst =
      (l.map Prod.fst).filter (fun m => ¬(m = n)) := by
  induction l with
  | nil => rfl
  | cons p rest ih =>
    by_cases hp : p.1 = n <;> simp [eraseKey, List.filter_cons, hp] at ih ⊢ <;>
      simpa [eraseKey] using ih

/-- The map insert keeps the keys without duplicates. -/
theorem insertKey_nodup (l : List (String × controlledDevice)) (n : String)
    (v : controlledDevice) (h : (l.map Prod.fst).Nodup) :
    ((insertKey l n v).map Prod.fst).Nodup := by
  rw [insertKey, List.map_cons, List.nodup_cons, eraseKey_keys]
  constructor
  · intro hmem
    have := List.of_mem_filter hmem
    simp at this
  · exact h.filter _

/-- The map delete keeps the keys without duplicates. -/
theorem eraseKey_nodup (l : List (String × controlledDevice)) (n : String)
    (h : (l.map Prod.fst).Nodup) :
    ((eraseKey l n).map Prod.fst).Nodup := by
  rw [eraseKey_keys]
  exact h.filter _

/-- A successful `stopDevice` keeps the keys without duplicates. -/
theorem stopDevice_nodup (s : CtrlState) (n : String) (s' : CtrlState)
    (h : (s.startedPlugins.map Prod.fst).Nodup)
    (heq : stopDevice s n = some s') :
    (s'.startedPlugins.map Prod.fst).Nodup := by
  unfold stopDevice at heq
  cases hl : lookupPlugin s.startedPlugins n with
  | none => rw [hl] at heq; cases heq; exact h
  | some dev =>
    rw [hl] at heq
    dsimp only at heq
    rw [Option.map_eq_some'] at heq
    obtain ⟨r, hstop, rfl⟩ := heq
    exact eraseKey_nodup _ _ h

/-- A successful `startDevice` keeps the keys without duplicates. -/
theorem startDevice_nodup (s : CtrlState) (n : String)
    (d : BridgeDevicePlugin) (bo : List Nat) (s' : CtrlState)
    (h : (s.startedPlugins.map Prod.fst).Nodup)
    (heq : startDevice s n d bo = some s') :
    (s'.startedPlugins.map Prod.fst).Nodup := by
  unfold startDevice at heq
  rw [Option.map_eq_some'] at heq
  obtain ⟨s1, hstop, rfl⟩ := heq
  exact insertKey_nodup _ _ _ (stopDevice_nodup s n s1 h hstop)

/-- Folding supervisor operations preserves duplicate-free keys. -/
theorem foldl_ops_nodup (bo : List Nat) :
    ∀ (ops : List SupOp) (o : Option CtrlState) (s : CtrlState),
      (∀ s0, o = some s0 → (s0.startedPlugins.map Prod.fst).Nodup) →
      ops.foldl (fun os op => os.bind (fun st => applySupOp bo st op)) o =
        some s →
      (s.startedPlugins.map Prod.fst).Nodup := by
  intro ops
  induction ops with
  | nil => intro o s h heq; exact h s heq
  | cons op rest ih =>
    intro o s h heq
    rw [List.foldl_cons] at heq
    apply ih _ s _ heq
    intro s0 h0
    rw [Option.bind_eq_some] at h0
    obtain ⟨s1, ho, happly⟩ := h0
    have h1 := h s1 ho
    cases op with
    | start n d => exact startDevice_nodup _ _ _ _ _ h1 happly
    | stop n => exact stopDevice_nodup _ _ _ h1 happly

/-- The event trace of `startDevice`: the old wrapper (when present) is
stopped strictly before the fresh wrapper is started and recorded. -/
theorem startDevice_trace (s : CtrlState) (n : String) (d : BridgeDevicePlugin)
    (bo : List Nat) (s' : CtrlState) (heq : startDevice s n d bo = some s') :
    ((lookupPlugin s.startedPlugins n).isSome = true →
      s'.trace = s.trace ++
        [CtrlEvent.stopWrapper n, CtrlEvent.startWrapper n,
         CtrlEvent.record n]) ∧
    (lookupPlugin s.startedPlugins n = none →
      s'.trace = s.trace ++
        [CtrlEvent.startWrapper n, CtrlEvent.record n]) := by
  unfold startDevice at heq
  rw [Option.map_eq_some'] at heq
  obtain ⟨s1, hstop, rfl⟩ := heq
  unfold stopDevice at hstop
  cases hl : lookupPlugin s.startedPlugins n with
  | none =>
    rw [hl] at hstop
    cases hstop
    constructor
    · intro hsome; simp at hsome
    · intro _; rfl
  | some dev =>
    rw [hl] at hstop
    dsimp only at hstop
    rw [Option.map_eq_some'] at hstop
    obtain ⟨r, hcd, rfl⟩ := hstop
    constructor
    · intro _
      dsimp only
      rw [List.append_assoc]
      rfl
    · intro hnone; cases hnone

/-- Claim C6: in any run of the supervisor, the running map holds at most
one wrapper per device name, and every insertion by `startDevice` is
preceded by `stopDevice` on the same name, so an existing wrapper is
stopped before it is replaced. -/
theorem startedPlugins_unique_and_stop_before_replace :
    (∀ (bo : List Nat) (ops : List SupOp) (s : CtrlState),
      runOps bo ops = some s → (s.startedPlugins.map Prod.fst).Nodup) ∧
    (∀ (s : CtrlState) (n : String) (d : BridgeDevicePlugin) (bo : List Nat)
      (s' : CtrlState), startDevice s n d bo = some s' →
      ((lookupPlugin s.startedPlugins n).isSome = true →
        s'.trace = s.trace ++
          [CtrlEvent.stopWrapper n, CtrlEvent.startWrapper n,
           CtrlEvent.record n]) ∧
      (lookupPlugin s.startedPlugins n = none →
        s'.trace = s.trace ++
          [CtrlEvent.startWrapper n, CtrlEvent.record n])) := by
  constructor
  · intro bo ops s heq
    unfold runOps at heq
    exact foldl_ops_nodup bo ops (some initCtrlState) s
      (fun s0 h0 => by cases h0; exact List.nodup_nil) heq
  · intro s n d bo s' heq
    exact startDevice_trace s n d bo s' heq

/-- Witness for C6: a run that starts br0 twice keeps a duplicate-free
map, and replacing the running br0 wrapper stops it first in the trace. -/
theorem startedPlugins_unique_and_stop_before_replace_witness :
    (runOps defaultBackoffTime
      [SupOp.start ("br0") (NewBridgeDevicePlugin ("br0") 1),
       SupOp.start ("br0") (NewBridgeDevicePlugin ("br0") 1)]).isSome = true ∧
    (runOps defaultBackoffTime
      [SupOp.start ("br0") (NewBridgeDevicePlugin ("br0") 1),
       SupOp.start ("br0") (NewBridgeDevicePlugin ("br0") 1)]).elim True
      (fun s => (s.startedPlugins.map Prod.fst).Nodup) ∧
    (startDevice sampleStartedState ("br0") (NewBridgeDevicePlugin ("br0") 1)
      defaultBackoffTime).isSome = true ∧
    (startDevice sampleStartedState ("br0") (NewBridgeDevicePlugin ("br0") 1)
      defaultBackoffTime).elim True
      (fun s' => s'.trace = sampleStartedState.trace ++
        [CtrlEvent.stopWrapper ("br0"), CtrlEvent.startWrapper ("br0"),
         CtrlEvent.record ("br0")]) := by
  refine ⟨by decide, ?_, by decide, ?_⟩
  · cases hEq : runOps defaultBackoffTime
      [SupOp.start ("br0") (NewBridgeDevicePlugin ("br0") 1),
       SupOp.start ("br0") (NewBridgeDevicePlugin ("br0") 1)] with
    | none => exact trivial
    | some s =>
      exact startedPlugins_unique_and_stop_before_replace.1 _ _ s hEq
  · cases hEq : startDevice sampleStartedState ("br0")
      (NewBridgeDevicePlugin ("br0") 1) defaultBackoffTime with
    | none => exact trivial
    | some s' =>
      exact (startedPlugins_unique_and_stop_before_replace.2
        sampleStartedState ("br0") _ _ s' hEq).1 (by decide)

/-! ## Supervisor readiness -/

/-- The readiness loop holds iff every entry reports initialized. -/
theorem initializedLoop_iff (l : List (String × controlledDevice)) :
    initializedLoop l = true ↔
      ∀ p ∈ l, p.2.devicePlugin.GetInitialized = true := by
  induction l with
  | nil => simp [initializedLoop]
  | cons p rest ih =>
    obtain ⟨n, dev⟩ := p
    by_cases hdev : dev.devicePlugin.GetInitialized
    · simp [initializedLoop, hdev, ih]
    · simp [initializedLoop, hdev]

/-- Claim C8: `Initialized` returns true iff every plugin in the running
map reports initialized; on an empty map it returns true vacuously. -/
theorem initialized_iff_all_plugins :
    ∀ s : CtrlState,
      (s.Initialized = true ↔
        ∀ p ∈ s.startedPlugins, p.2.devicePlugin.GetInitialized = true) ∧
      (s.startedPlugins = [] → s.Initialized = true) := by
  intro s
  constructor
  · exact initializedLoop_iff s.startedPlugins
  · intro hempty
    unfold CtrlState.Initialized
    rw [hempty]
    rfl

/-- Witness for C8 at the empty initial supervisor state. -/
theorem initialized_iff_all_plugins_witness :
    initCtrlState.Initialized = true := by
  exact (initialized_iff_all_plugins initCtrlState).2 rfl

end BridgeMarker
